import Mathlib

set_option maxHeartbeats 1000000

/-!
Shallow embedding of the Semisizer pipeline (src/Semisizer/Semisizer.py).

External effects are modelled by an oracle structure `Env` giving the result of
every call into an external system (yt-dlp, ffmpeg, ollama, whisper, the clock),
and a world state `W` holding the chronological trace of observable events
(UI messages and external calls) together with the set of files on disk.
Python exceptions are modelled with `Except String`; Python `None` results with
`Option`; Python truthiness of strings is emptiness, of dict-like responses an
explicit `truthy` computation.
-/

/-- One observable event of a run: a UI rendering call, an external call, or a
file deletion.  Decorative, payload-free UI calls at the top of `main` are kept
as bare constructors. -/
inductive Event where
  | setBackground
  | uiTitle
  | uiSubtitle
  | uiAbout
  | uiTextInput
  | uiSuccess (msg : String)
  | uiError (msg : String)
  | uiInfo (msg : String)
  | uiWrite (msg : String)
  | uiVideo (url : String)
  | uiHeader (msg : String)
  | callDownload (url : String)
  | callFfmpeg (input : String)
  | callOllama (model : String) (content : String)
  | callWhisperLoad (size : String)
  | callWhisperTranscribe (path : String)
  | osRemove (path : String)
  deriving DecidableEq

/-- World state threaded through the program: the event trace so far and the
files currently existing in the working directory. -/
structure W where
  events : List Event
  fs : List String
  deriving DecidableEq

/-- Append one event to the trace. -/
def W.log (w : W) (e : Event) : W :=
  { w with events := w.events ++ [e] }

/-- A file appearing on disk (`os.path.exists` becomes list membership). -/
def addFile (p : String) (fs : List String) : List String :=
  if p ∈ fs then fs else fs ++ [p]

/-- The `message` entry of an ollama chat response: a dict that may or may not
carry a `content` key. -/
structure Message where
  content : Option String
  deriving DecidableEq

/-- An ollama chat response: it may carry a `message` entry, and `otherKeys`
records whether it has further entries (so that Python truthiness of the
response is independent of the presence of `message`). -/
structure ChatResponse where
  message : Option Message
  otherKeys : Bool
  deriving DecidableEq

/-- Python truthiness of a dict-like response: non-empty. -/
def ChatResponse.truthy (r : ChatResponse) : Bool :=
  r.otherKeys || r.message.isSome

/-- Result of `subprocess.run(["ffmpeg", ...], capture_output=True)`. -/
structure FfmpegResult where
  returncode : Int
  stderr : String
  deriving DecidableEq

/-- Oracles for every external system the program calls.  `Except.error e`
models the call raising an exception whose `str` is `e`.  `whisper_transcribe`
returns the transcription result: `none` for a `None` result, otherwise the
key/value entries of the result dict. -/
structure Env where
  download : String → Except String String
  ffmpeg : String → FfmpegResult
  ollama_chat : String → String → Except String ChatResponse
  whisper_load : String → Except String Unit
  whisper_transcribe : String → Except String (Option (List (String × String)))
  t0 : Int
  t1 : Int

/-- `download_video`: run yt-dlp, which writes the downloaded file and returns
its path. -/
def download_video (env : Env) (url : String) (w : W) : Except String String × W :=
  let w := w.log (Event.callDownload url)
  match env.download url with
  | Except.error e => (Except.error e, w)
  | Except.ok file_path => (Except.ok file_path, { w with fs := addFile file_path w.fs })

/-- `convert_audio`: run ffmpeg; on a non-zero return code show its stderr and
raise `RuntimeError("FFmpeg conversion failed")`, otherwise the converted file
exists and its path is returned. -/
def convert_audio (env : Env) (input_path : String) (w : W) : Except String String × W :=
  let result := env.ffmpeg input_path
  let w := w.log (Event.callFfmpeg input_path)
  if result.returncode ≠ 0 then
    (Except.error "FFmpeg conversion failed",
      w.log (Event.uiError ("❌ FFmpeg conversion failed:\n" ++ result.stderr)))
  else
    (Except.ok "converted_audio.wav", { w with fs := addFile "converted_audio.wav" w.fs })

/-- `initialize_model`: greet the fixed model; on success return the model name
(with a success message if the response is truthy), on any exception show the
error and return `None`. -/
def initialize_model (env : Env) (w : W) : Option String × W :=
  let w := w.log (Event.callOllama "llama3.2:latest" "Hello!")
  match env.ollama_chat "llama3.2:latest" "Hello!" with
  | Except.ok response =>
      (some "llama3.2:latest",
        if response.truthy then w.log (Event.uiSuccess "✅ Model loaded successfully!") else w)
  | Except.error e =>
      (none, w.log (Event.uiError ("❌ Ollama Model failed: " ++ e)))

/-- `response.get("message", {}).get("content", "")`. -/
def contentOf (r : ChatResponse) : String :=
  match r.message with
  | some m => m.content.getD ""
  | none => ""

/-- Python `str.strip()`: remove leading and trailing whitespace (structurally
recursive so that concrete runs evaluate). -/
def pyStrip (s : String) : String :=
  String.mk (((s.data.dropWhile Char.isWhitespace).reverse.dropWhile Char.isWhitespace).reverse)

/-- `summarize_text`: send the fixed prompt, return the stripped message
content on success, `None` (after an error message) on any exception. -/
def summarize_text (env : Env) (text model_ : String) (w : W) : Option String × W :=
  let w := w.log (Event.callOllama model_ ("Summarize this: " ++ text))
  match env.ollama_chat model_ ("Summarize this: " ++ text) with
  | Except.ok response => (some (pyStrip (contentOf response)), w)
  | Except.error e => (none, w.log (Event.uiError ("❌ Failed to summarize: " ++ e)))

/-- Python `str.endswith`: suffix test on the character lists (structurally
recursive so that concrete runs evaluate). -/
def endswith (s suffix : String) : Bool :=
  List.isSuffixOf suffix.data s.data

/-- Lookup of a key in a Python dict modelled as an association list. -/
def lookupKey (k : String) : List (String × String) → Option String
  | [] => none
  | (k', v) :: rest => if k' = k then some v else lookupKey k rest

/-- `result and "text" in result` followed by `result["text"]`: the text field
of a transcription result when the result is truthy and carries one. -/
def whisperText (r : Option (List (String × String))) : Option String :=
  match r with
  | some d => lookupKey "text" d
  | none => none

/-- `transcribe_audio`: convert to WAV when needed, load the "small" whisper
model, transcribe, and return the `"text"` field when present, `None` (after a
failure message) otherwise.  Exceptions from conversion, loading or
transcription propagate. -/
def transcribe_audio (env : Env) (file_path : String) (w : W) :
    Except String (Option String) × W :=
  let w := w.log (Event.uiSuccess "✅ Transcribing Audio Using Whisper...")
  match (if endswith file_path ".wav" then (Except.ok file_path, w)
         else convert_audio env file_path w) with
  | (Except.error e, w) => (Except.error e, w)
  | (Except.ok fp, w) =>
    let w := w.log (Event.callWhisperLoad "small")
    match env.whisper_load "small" with
    | Except.error e => (Except.error e, w)
    | Except.ok _ =>
      let w := w.log (Event.callWhisperTranscribe fp)
      match env.whisper_transcribe fp with
      | Except.error e => (Except.error e, w)
      | Except.ok result =>
        match whisperText result with
        | some t => (Except.ok (some t), w.log (Event.uiSuccess "✅ Transcription Complete!"))
        | none => (Except.ok none, w.log (Event.uiError "❌ Transcription failed."))

/-- `os.remove`: deletes the file, raising (`none`) when it does not exist. -/
def os_remove (p : String) (fs : List String) : Option (List String) :=
  if p ∈ fs then some (fs.filter (fun q => q ≠ p)) else none

/-- `cleanup_files`: delete each of the two hardcoded temporary files when it
exists.  `none` would mean an uncaught `os.remove` failure. -/
def cleanup_files (w : W) : Option W :=
  List.foldlM
    (fun (w : W) (file : String) =>
      if file ∈ w.fs then
        (os_remove file w.fs).map
          (fun fs' => { events := w.events ++ [Event.osRemove file], fs := fs' })
      else some w)
    w ["downloaded_audio.mp3", "converted_audio.wav"]

/-- The rendered `f"⏳ Processing Time: {elapsed_time:.2f} seconds"` message,
with the elapsed clock value as an integer. -/
def timeMsg (elapsed : Int) : String :=
  "⏳ Processing Time: " ++ toString elapsed ++ " seconds"

/-- The remainder of the `try` block once the Summarizing step is reached with
non-empty transcript `t` and model name `model_`, starting from the world
state left by `transcribe_audio`: the `Generating Summary` message, the
summarization call, the elapsed-time computation, the result columns, and the
cleanup. -/
def finishRun (env : Env) (url t model_ : String) (start_time : Int) (w : W) :
    Except String Unit × W :=
  let w := w.log (Event.uiInfo "📝 Generating Summary...")
  let s := summarize_text env t model_ w
  let summary := s.1
  let w := s.2
  let elapsed_time := env.t1 - start_time
  let w := w.log (Event.uiVideo url)
  let w := w.log (Event.uiHeader "📜 Summary")
  let w :=
    match summary with
    | some sv =>
      if sv = "" then w.log (Event.uiError "❌ Summary generation failed.")
      else (w.log (Event.uiSuccess sv)).log (Event.uiWrite (timeMsg elapsed_time))
    | none => w.log (Event.uiError "❌ Summary generation failed.")
  match cleanup_files w with
  | some w => (Except.ok (), w)
  | none => (Except.error "FileNotFoundError", w)

/-- The body of the `try` block of `main`, started after `start_time` was read.
`Except.ok ()` means the block completed or hit an early `return`;
`Except.error e` means an exception escaped to the `except` handler. -/
def tryBody (env : Env) (youtube_url : String) (start_time : Int) (w : W) :
    Except String Unit × W :=
  let w := w.log (Event.uiSuccess "✅ Downloading Audio...")
  match download_video env youtube_url w with
  | (Except.error e, w) => (Except.error e, w)
  | (Except.ok file_path, w) =>
    let w := w.log (Event.uiInfo "🔄 Initializing AI Model...")
    match initialize_model env w with
    | (none, w) => (Except.ok (), w)
    | (some model_, w) =>
      let w := w.log (Event.uiInfo "🎙️ Transcribing Audio...")
      let pr := transcribe_audio env file_path w
      match pr.1 with
      | Except.error e => (Except.error e, pr.2)
      | Except.ok transcription =>
        match transcription with
        | none => (Except.ok (), pr.2)
        | some t =>
          if t = "" then (Except.ok (), pr.2)
          else finishRun env youtube_url t model_ start_time pr.2

/-- `main`: render the page furniture, and when the button was clicked with a
non-empty URL run the pipeline, catching any exception in a generic error
message. -/
def Semisizer.main (env : Env) (youtube_url : String) (clicked : Bool) (w : W) : W :=
  let w := w.log Event.setBackground
  let w := w.log Event.uiTitle
  let w := w.log Event.uiSubtitle
  let w := w.log Event.uiAbout
  let w := w.log Event.uiTextInput
  if clicked ∧ youtube_url ≠ "" then
    match tryBody env youtube_url env.t0 w with
    | (Except.ok _, w) => w
    | (Except.error e, w) => w.log (Event.uiError ("❌ Error: " ++ e))
  else w

/-- `delete_file`: delete the given file if it exists (module-level epilogue
helper). -/
def delete_file (file_path : String) (w : W) : Option W :=
  if file_path ∈ w.fs then
    (os_remove file_path w.fs).map
      (fun fs' => { events := w.events ++ [Event.osRemove file_path], fs := fs' })
  else some w

/-- The whole script: run `main`, then the module-level `delete_file` calls on
`"downloaded_audio.webm"` and `"converted_audio.wav"`. -/
def script (env : Env) (youtube_url : String) (clicked : Bool) (w : W) : Option W :=
  match delete_file "downloaded_audio.webm" (Semisizer.main env youtube_url clicked w) with
  | none => none
  | some w => delete_file "converted_audio.wav" w


/-- The pure result of `convert_audio` (its returned value, ignoring the
trace), recomputed from the oracles alone. -/
def convert_res (env : Env) (p : String) : Except String String :=
  if (env.ffmpeg p).returncode ≠ 0 then Except.error "FFmpeg conversion failed"
  else Except.ok "converted_audio.wav"

/-- The pure result of `transcribe_audio` from the oracles alone. -/
def transcribe_res (env : Env) (file_path : String) : Except String (Option String) :=
  match (if endswith file_path ".wav" then Except.ok file_path
         else convert_res env file_path) with
  | Except.error e => Except.error e
  | Except.ok fp =>
    match env.whisper_load "small" with
    | Except.error e => Except.error e
    | Except.ok _ =>
      match env.whisper_transcribe fp with
      | Except.error e => Except.error e
      | Except.ok result => Except.ok (whisperText result)

/-- Python truthiness of a transcription outcome: a successfully returned,
non-`None`, non-empty string. -/
def truthyT : Except String (Option String) → Bool
  | Except.ok (some t) => t != ""
  | _ => false

/-- Whether the model-initialization greeting call succeeds. -/
def initOk (env : Env) : Bool :=
  match env.ollama_chat "llama3.2:latest" "Hello!" with
  | Except.ok _ => true
  | Except.error _ => false

/-- Event is an `ollama.chat` call. -/
def isOllamaCall : Event → Bool
  | Event.callOllama _ _ => true
  | _ => false

/-- Event is the `Generating Summary` progress message marking the Summarizing
step. -/
def isGenSummaryInfo : Event → Bool
  | Event.uiInfo s => s == "📝 Generating Summary..."
  | _ => false

/-- Event is a `st.write` call (used only for the processing-time readout). -/
def isUiWrite : Event → Bool
  | Event.uiWrite _ => true
  | _ => false

/-- Event is a `whisper.load_model` call. -/
def isWhisperLoadCall : Event → Bool
  | Event.callWhisperLoad _ => true
  | _ => false

/-- Event is a `model.transcribe` call. -/
def isWhisperTranscribeCall : Event → Bool
  | Event.callWhisperTranscribe _ => true
  | _ => false

/-- Event is an ffmpeg subprocess invocation. -/
def isFfmpegCall : Event → Bool
  | Event.callFfmpeg _ => true
  | _ => false

/-- Event is the transcription-failure message. -/
def isTranscribeFailMsg : Event → Bool
  | Event.uiError s => s == "❌ Transcription failed."
  | _ => false

/-- Event is the transcription-complete message. -/
def isTranscribeDoneMsg : Event → Bool
  | Event.uiSuccess s => s == "✅ Transcription Complete!"
  | _ => false

/-- The response carries no message content (no `message` entry, or a
`message` without `content`). -/
def contentNone (r : ChatResponse) : Bool :=
  match r.message with
  | none => true
  | some m => m.content.isNone

/-- The script finished without an uncaught error, and neither
`downloaded_audio.webm` nor `converted_audio.wav` remains on disk. -/
def scriptOk : Option W → Bool
  | some w => !(decide ("downloaded_audio.webm" ∈ w.fs)) && !(decide ("converted_audio.wav" ∈ w.fs))
  | none => false

/-- The events that `finishRun` appends before cleanup: the Summarizing
marker, the summarization call (with its error message when it raises), the
result columns, and the summary panel or the failure message with the
elapsed-time readout. -/
def finishEvents (env : Env) (url t model_ : String) (st : Int) : List Event :=
  [Event.uiInfo "📝 Generating Summary...",
   Event.callOllama model_ ("Summarize this: " ++ t)] ++
  (match env.ollama_chat model_ ("Summarize this: " ++ t) with
   | Except.ok _ => []
   | Except.error e => [Event.uiError ("❌ Failed to summarize: " ++ e)]) ++
  [Event.uiVideo url, Event.uiHeader "📜 Summary"] ++
  (match env.ollama_chat model_ ("Summarize this: " ++ t) with
   | Except.ok rs =>
     if pyStrip (contentOf rs) = "" then [Event.uiError "❌ Summary generation failed."]
     else [Event.uiSuccess (pyStrip (contentOf rs)), Event.uiWrite (timeMsg (env.t1 - st))]
   | Except.error _ => [Event.uiError "❌ Summary generation failed."])

/-- A greeting response carrying content. -/
def helloResp : ChatResponse := { message := some { content := some "Hi there" }, otherKeys := false }

/-- A summarization response whose content has surrounding whitespace. -/
def summResp : ChatResponse := { message := some { content := some " a summary " }, otherKeys := false }

/-- A truthy response with no message content. -/
def emptyResp : ChatResponse := { message := none, otherKeys := true }

/-- Oracles for a fully successful run that needs audio conversion. -/
def envHappy : Env :=
  { download := fun _ => Except.ok "downloaded_audio.mp3"
    ffmpeg := fun _ => { returncode := 0, stderr := "" }
    ollama_chat := fun _ c => if c = "Hello!" then Except.ok helloResp else Except.ok summResp
    whisper_load := fun _ => Except.ok ()
    whisper_transcribe := fun _ => Except.ok (some [("text", " hello world ")])
    t0 := 5
    t1 := 12 }

/-- Oracles where the download raises. -/
def envDownFail : Env := { envHappy with download := fun _ => Except.error "network down" }

/-- Oracles where the model greeting raises. -/
def envInitFail : Env := { envHappy with ollama_chat := fun _ _ => Except.error "connection refused" }

/-- Oracles where ffmpeg exits non-zero. -/
def envFfmpegFail : Env := { envHappy with ffmpeg := fun _ => { returncode := 1, stderr := "bad stream" } }

/-- Oracles where the summarization call raises (greeting fine, `.wav` input). -/
def envLlmDown : Env :=
  { envHappy with
    download := fun _ => Except.ok "a.wav"
    ollama_chat := fun _ c => if c = "Hello!" then Except.ok helloResp else Except.error "llm down" }

/-- Oracles where the summarization response has no message content. -/
def envNoContent : Env :=
  { envHappy with
    download := fun _ => Except.ok "a.wav"
    ollama_chat := fun _ c => if c = "Hello!" then Except.ok helloResp else Except.ok emptyResp }

/-- The value returned by `convert_audio` does not depend on the incoming
world state. -/
theorem convert_audio_fst (env : Env) (p : String) (w : W) :
    (convert_audio env p w).1 = convert_res env p := by
  unfold convert_audio convert_res
  by_cases h : (env.ffmpeg p).returncode ≠ 0 <;> simp [h]

/-- The value returned by `transcribe_audio` does not depend on the incoming
world state. -/
theorem transcribe_audio_fst (env : Env) (p : String) (w : W) :
    (transcribe_audio env p w).1 = transcribe_res env p := by
  unfold transcribe_audio transcribe_res
  by_cases hp : endswith p ".wav"
  · simp only [hp, if_true]
    cases h1 : env.whisper_load "small" <;> simp [h1]
    cases h2 : env.whisper_transcribe p <;> simp [h2]
    cases h3 : whisperText _ <;> simp [h3]
  · simp only [hp, if_false, Bool.false_eq_true]
    rcases hc : convert_audio env p (W.log w (Event.uiSuccess "✅ Transcribing Audio Using Whisper...")) with ⟨cr, cw⟩
    have hfst := convert_audio_fst env p (W.log w (Event.uiSuccess "✅ Transcribing Audio Using Whisper..."))
    rw [hc] at hfst
    rw [← hfst]
    cases cr with
    | error e => simp
    | ok fp' =>
      simp only
      cases h1 : env.whisper_load "small" <;> simp [h1]
      cases h2 : env.whisper_transcribe fp' <;> simp [h2]
      cases h3 : whisperText _ <;> simp [h3]

/-- `transcribe_audio` only appends events of its own kinds: any count of a
predicate false on all of them is preserved. -/
theorem transcribe_audio_countP (env : Env) (p : String) (w : W) (q : Event → Bool)
    (hq1 : ∀ s, q (Event.uiSuccess s) = false)
    (hq2 : ∀ s, q (Event.uiError s) = false)
    (hq3 : ∀ s, q (Event.callFfmpeg s) = false)
    (hq4 : ∀ s, q (Event.callWhisperLoad s) = false)
    (hq5 : ∀ s, q (Event.callWhisperTranscribe s) = false) :
    ((transcribe_audio env p w).2.events).countP q = w.events.countP q := by
  unfold transcribe_audio convert_audio
  by_cases hp : endswith p ".wav"
  · simp only [hp, if_true]
    cases h1 : env.whisper_load "small" with
    | error e1 => simp [W.log, List.countP_append, List.countP_cons, hq1, hq4, h1]
    | ok u =>
      cases h2 : env.whisper_transcribe p with
      | error e2 => simp [W.log, List.countP_append, List.countP_cons, hq1, hq4, hq5, h1, h2]
      | ok r2 =>
        cases h3 : whisperText r2 <;>
          simp [W.log, List.countP_append, List.countP_cons, hq1, hq2, hq4, hq5, h1, h2, h3]
  · simp only [hp, if_false, Bool.false_eq_true]
    by_cases hf : (env.ffmpeg p).returncode ≠ 0
    · simp [hf, W.log, List.countP_append, List.countP_cons, hq1, hq2, hq3]
    · simp only [hf, if_false, if_neg]
      cases h1 : env.whisper_load "small" with
      | error e1 => simp [hf, W.log, List.countP_append, List.countP_cons, hq1, hq3, hq4, h1]
      | ok u =>
        cases h2 : env.whisper_transcribe "converted_audio.wav" with
        | error e2 =>
          simp [hf, W.log, List.countP_append, List.countP_cons, hq1, hq3, hq4, hq5, h1, h2]
        | ok r2 =>
          cases h3 : whisperText r2 <;>
            simp [hf, W.log, List.countP_append, List.countP_cons,
              hq1, hq2, hq3, hq4, hq5, h1, h2, h3]

/-- `transcribe_audio` only appends events of its own kinds: membership of any
other event is preserved. -/
theorem transcribe_audio_mem (env : Env) (p : String) (w : W) (e : Event)
    (he1 : e ≠ Event.uiSuccess "✅ Transcribing Audio Using Whisper...")
    (he2 : e ≠ Event.uiSuccess "✅ Transcription Complete!")
    (he3 : ∀ s, e ≠ Event.uiError s)
    (he4 : ∀ s, e ≠ Event.callFfmpeg s)
    (he5 : e ≠ Event.callWhisperLoad "small")
    (he6 : ∀ s, e ≠ Event.callWhisperTranscribe s) :
    (e ∈ (transcribe_audio env p w).2.events) ↔ e ∈ w.events := by
  unfold transcribe_audio convert_audio
  by_cases hp : endswith p ".wav"
  · simp only [hp, if_true]
    cases h1 : env.whisper_load "small" with
    | error e1 => simp [W.log, he1, he5, h1]
    | ok u =>
      cases h2 : env.whisper_transcribe p with
      | error e2 => simp [W.log, he1, he5, he6, h1, h2]
      | ok r2 =>
        cases h3 : whisperText r2 <;> simp [W.log, he1, he2, he3, he5, he6, h1, h2, h3]
  · simp only [hp, if_false, Bool.false_eq_true]
    by_cases hf : (env.ffmpeg p).returncode ≠ 0
    · simp [hf, W.log, he1, he3, he4]
    · simp only [hf, if_false, if_neg]
      cases h1 : env.whisper_load "small" with
      | error e1 => simp [hf, W.log, he1, he4, he5, h1]
      | ok u =>
        cases h2 : env.whisper_transcribe "converted_audio.wav" with
        | error e2 => simp [hf, W.log, he1, he4, he5, he6, h1, h2]
        | ok r2 =>
          cases h3 : whisperText r2 <;> simp [hf, W.log, he1, he2, he3, he4, he5, he6, h1, h2, h3]

/-- `delete_file` never raises: the existence guard protects the removal. -/
theorem delete_file_total (p : String) (w : W) : ∃ w', delete_file p w = some w' := by
  unfold delete_file os_remove
  by_cases h : p ∈ w.fs <;> simp [h]

/-- After `delete_file p`, the file `p` is gone. -/
theorem delete_file_fs_self (p : String) (w w' : W) (h : delete_file p w = some w') :
    p ∉ w'.fs := by
  unfold delete_file os_remove at h
  by_cases hm : p ∈ w.fs
  · simp only [hm, if_true, Option.map_some] at h
    cases h
    simp [List.mem_filter]
  · simp only [hm, if_false] at h
    cases h
    exact hm

/-- `delete_file` never makes a file appear. -/
theorem delete_file_fs_mono (p q : String) (w w' : W) (h : delete_file q w = some w')
    (hp : p ∉ w.fs) : p ∉ w'.fs := by
  unfold delete_file os_remove at h
  by_cases hm : q ∈ w.fs
  · simp only [hm, if_true, Option.map_some] at h
    cases h
    simp only [List.mem_filter]
    intro hc
    exact hp hc.1
  · simp only [hm, if_false] at h
    cases h
    exact hp

/-- `delete_file` either leaves the trace alone or appends the one removal
event. -/
theorem delete_file_events (p : String) (w w' : W) (h : delete_file p w = some w') :
    w'.events = w.events ∨ w'.events = w.events ++ [Event.osRemove p] := by
  unfold delete_file os_remove at h
  by_cases hm : p ∈ w.fs
  · simp only [hm, if_true, Option.map_some] at h
    cases h
    right
    rfl
  · simp only [hm, if_false] at h
    cases h
    left
    rfl

/-- `cleanup_files` is the composition of the two guarded deletions. -/
theorem cleanup_files_eq (w : W) :
    cleanup_files w
      = (delete_file "downloaded_audio.mp3" w).bind (delete_file "converted_audio.wav") := by
  unfold cleanup_files delete_file
  by_cases h1 : "downloaded_audio.mp3" ∈ w.fs <;>
    by_cases h2 : "converted_audio.wav" ∈ w.fs <;>
      simp [List.foldlM, h1, h2, os_remove, Option.bind]

/-- `cleanup_files` never raises: both removals are guarded. -/
theorem cleanup_files_total (w : W) : ∃ w', cleanup_files w = some w' := by
  rw [cleanup_files_eq]
  rcases delete_file_total "downloaded_audio.mp3" w with ⟨w1, hw1⟩
  rcases delete_file_total "converted_audio.wav" w1 with ⟨w2, hw2⟩
  refine ⟨w2, ?_⟩
  rw [hw1]
  exact hw2

/-- `cleanup_files` only appends `osRemove` events: any count of a predicate
false on removals is preserved. -/
theorem cleanup_files_countP (w w' : W) (q : Event → Bool) (h : cleanup_files w = some w')
    (hq : ∀ s, q (Event.osRemove s) = false) :
    w'.events.countP q = w.events.countP q := by
  rw [cleanup_files_eq] at h
  rcases hb : delete_file "downloaded_audio.mp3" w with _ | w1
  · rw [hb] at h
    cases h
  · rw [hb] at h
    replace h : delete_file "converted_audio.wav" w1 = some w' := h
    rcases delete_file_events _ _ _ hb with h1 | h1 <;>
      rcases delete_file_events _ _ _ h with h2 | h2 <;>
        simp [h1, h2, List.countP_append, List.countP_cons, hq]

/-- `cleanup_files` only appends `osRemove` events: membership of any other
event is preserved. -/
theorem cleanup_files_mem (w w' : W) (e : Event) (h : cleanup_files w = some w')
    (he : ∀ s, e ≠ Event.osRemove s) :
    e ∈ w'.events ↔ e ∈ w.events := by
  rw [cleanup_files_eq] at h
  rcases hb : delete_file "downloaded_audio.mp3" w with _ | w1
  · rw [hb] at h
    cases h
  · rw [hb] at h
    replace h : delete_file "converted_audio.wav" w1 = some w' := h
    rcases delete_file_events _ _ _ hb with h1 | h1 <;>
      rcases delete_file_events _ _ _ h with h2 | h2 <;>
        simp [h1, h2, he]

/-- After `cleanup_files`, neither hardcoded temporary file exists. -/
theorem cleanup_files_fs (w w' : W) (h : cleanup_files w = some w') :
    "downloaded_audio.mp3" ∉ w'.fs ∧ "converted_audio.wav" ∉ w'.fs := by
  rw [cleanup_files_eq] at h
  rcases hb : delete_file "downloaded_audio.mp3" w with _ | w1
  · rw [hb] at h
    cases h
  · rw [hb] at h
    replace h : delete_file "converted_audio.wav" w1 = some w' := h
    refine ⟨?_, delete_file_fs_self _ _ _ h⟩
    exact delete_file_fs_mono _ _ _ _ h (delete_file_fs_self _ _ _ hb)

/-- `cleanup_files` always yields a state. -/
theorem cleanup_files_isSome (w : W) : (cleanup_files w).isSome = true := by
  rcases cleanup_files_total w with ⟨w', h⟩
  simp [h]

/-- `finishRun` always completes normally (cleanup cannot raise). -/
theorem finishRun_fst (env : Env) (url t model_ : String) (st : Int) (w : W) :
    (finishRun env url t model_ st w).1 = Except.ok () := by
  unfold finishRun
  rcases hS : env.ollama_chat model_ ("Summarize this: " ++ t) with e | rs
  · simp only [summarize_text, hS]
    split
    · rfl
    · rename_i heq
      exact absurd heq (Option.ne_none_iff_isSome.mpr (cleanup_files_isSome _))
  · by_cases hsv : pyStrip (contentOf rs) = "" <;>
      simp only [summarize_text, hS, hsv, if_true, if_false] <;>
        (split
         · rfl
         · rename_i heq
           exact absurd heq (Option.ne_none_iff_isSome.mpr (cleanup_files_isSome _)))

/-- `finishRun` as an explicit `ok` pair. -/
theorem finishRun_eq (env : Env) (url t model_ : String) (st : Int) (w : W) :
    finishRun env url t model_ st w
      = (Except.ok (), (finishRun env url t model_ st w).2) := by
  have hf := finishRun_fst env url t model_ st w
  rcases h : finishRun env url t model_ st w with ⟨r, w2⟩
  rw [h] at hf
  simp only at hf
  simp [hf]

/-- On a run whose download and greeting succeed and whose transcription
result is a non-empty string, `tryBody` reaches the Summarizing step:
it equals `finishRun` started from the transcription's world state. -/
theorem tryBody_done (env : Env) (url fp t : String) (r0 : ChatResponse) (w : W)
    (h1 : env.download url = Except.ok fp)
    (hI : env.ollama_chat "llama3.2:latest" "Hello!" = Except.ok r0)
    (h3 : transcribe_res env fp = Except.ok (some t))
    (h4 : t ≠ "") :
    tryBody env url env.t0 w
      = finishRun env url t "llama3.2:latest" env.t0
          (transcribe_audio env fp
            ⟨w.events ++
                [Event.uiSuccess "✅ Downloading Audio...", Event.callDownload url,
                  Event.uiInfo "🔄 Initializing AI Model...",
                  Event.callOllama "llama3.2:latest" "Hello!"] ++
                (if r0.truthy then [Event.uiSuccess "✅ Model loaded successfully!"] else []) ++
                [Event.uiInfo "🎙️ Transcribing Audio..."],
              addFile fp w.fs⟩).2 := by
  unfold tryBody download_video initialize_model
  by_cases hr : r0.truthy <;>
    simp [h1, hI, hr, W.log, transcribe_audio_fst, h3, h4]

/-- A run with successful download, greeting and non-empty transcription
computes `finishRun` on a transcription world state whose trace has one
ollama call, no Summarizing marker, no `st.write`, and no empty success
message. -/
theorem main_done (env : Env) (url : String) (fs : List String) (fp t : String)
    (r0 : ChatResponse)
    (hurl : url ≠ "")
    (h1 : env.download url = Except.ok fp)
    (hI : env.ollama_chat "llama3.2:latest" "Hello!" = Except.ok r0)
    (h3 : transcribe_res env fp = Except.ok (some t))
    (h4 : t ≠ "") :
    ∃ wT : W,
      Semisizer.main env url true ⟨[], fs⟩
        = (finishRun env url t "llama3.2:latest" env.t0 wT).2 ∧
      wT.events.countP isOllamaCall = 1 ∧
      wT.events.countP isGenSummaryInfo = 0 ∧
      wT.events.countP isUiWrite = 0 ∧
      Event.uiSuccess "" ∉ wT.events := by
  have htb := tryBody_done env url fp t r0
    ⟨[Event.setBackground, Event.uiTitle, Event.uiSubtitle, Event.uiAbout, Event.uiTextInput],
      fs⟩ h1 hI h3 h4
  unfold Semisizer.main
  simp only [W.log, List.nil_append, List.append_assoc, List.singleton_append,
    List.cons_append]
  rw [if_pos ⟨trivial, hurl⟩]
  rw [htb, finishRun_eq]
  refine ⟨_, rfl, ?_, ?_, ?_, ?_⟩
  · rw [transcribe_audio_countP env fp _ isOllamaCall (by intro s; rfl) (by intro s; rfl)
      (by intro s; rfl) (by intro s; rfl) (by intro s; rfl)]
    by_cases hr : r0.truthy <;>
      simp [hr, isOllamaCall, List.countP_cons, List.countP_append]
  · rw [transcribe_audio_countP env fp _ isGenSummaryInfo (by intro s; simp [isGenSummaryInfo])
      (by intro s; simp [isGenSummaryInfo]) (by intro s; simp [isGenSummaryInfo])
      (by intro s; simp [isGenSummaryInfo]) (by intro s; simp [isGenSummaryInfo])]
    by_cases hr : r0.truthy <;>
      simp [hr, isGenSummaryInfo, List.countP_cons, List.countP_append]
  · rw [transcribe_audio_countP env fp _ isUiWrite (by intro s; rfl) (by intro s; rfl)
      (by intro s; rfl) (by intro s; rfl) (by intro s; rfl)]
    by_cases hr : r0.truthy <;>
      simp [hr, isUiWrite, List.countP_cons, List.countP_append]
  · rw [transcribe_audio_mem env fp _ (Event.uiSuccess "") (by simp) (by simp)
      (by intro s; simp) (by intro s; simp) (by simp) (by intro s; simp)]
    by_cases hr : r0.truthy <;> simp [hr]

/-- C7: `summarize_text` sends exactly the fixed prompt `"Summarize this: "`
concatenated with the transcript to the named model; on success it returns the
response's message content with surrounding whitespace stripped, and on any
exception it reports the error to the user and returns null instead of
propagating. -/
theorem c7_summarize_text_contract (env : Env) (text mo : String) (fs : List String) :
    summarize_text env text mo ⟨[], fs⟩ =
      (match env.ollama_chat mo ("Summarize this: " ++ text) with
       | Except.ok r =>
         (some (pyStrip (contentOf r)),
           ⟨[Event.callOllama mo ("Summarize this: " ++ text)], fs⟩)
       | Except.error e =>
         (none,
           ⟨[Event.callOllama mo ("Summarize this: " ++ text),
             Event.uiError ("❌ Failed to summarize: " ++ e)], fs⟩)) := by
  rcases h : env.ollama_chat mo ("Summarize this: " ++ text) with e | r <;>
    simp [summarize_text, W.log, h]

/-- C10: every deletion in cleanup is guarded by an existence check, so
`cleanup_files` and `delete_file` never fail, and both are idempotent: a second
run on the resulting state succeeds and changes nothing. -/
theorem c10_cleanup_guarded_idempotent (p : String) (w : W) :
    (delete_file p w).isSome = true ∧
    (cleanup_files w).isSome = true ∧
    delete_file p ((delete_file p w).getD w) = some ((delete_file p w).getD w) ∧
    cleanup_files ((cleanup_files w).getD w) = some ((cleanup_files w).getD w) := by
  refine ⟨?_, cleanup_files_isSome w, ?_, ?_⟩
  · rcases delete_file_total p w with ⟨w', h⟩
    simp [h]
  · rcases h : delete_file p w with _ | w'
    · rcases delete_file_total p w with ⟨w'', h2⟩
      rw [h2] at h
      cases h
    · simp only [Option.getD_some]
      have hself := delete_file_fs_self p w w' h
      unfold delete_file
      simp [hself]
  · rcases h : cleanup_files w with _ | w'
    · have := cleanup_files_isSome w
      rw [h] at this
      cases this
    · simp only [Option.getD_some]
      have hfs := cleanup_files_fs w w' h
      rw [cleanup_files_eq]
      unfold delete_file
      simp [hfs.1, hfs.2, Option.bind]

/-- C8: `transcribe_audio` loads the fixed `"small"` model tier, returns the
result's `"text"` field when present, and returns null after reporting a
transcription failure when the result is absent or has no `"text"` field. -/
theorem c8_transcription_result (env : Env) (p : String) (fs : List String)
    (r : Option (List (String × String)))
    (h1 : endswith p ".wav" = true)
    (h2 : env.whisper_load "small" = Except.ok ())
    (h3 : env.whisper_transcribe p = Except.ok r) :
    (transcribe_audio env p ⟨[], fs⟩).1 = Except.ok (whisperText r) ∧
    Event.callWhisperLoad "small" ∈ (transcribe_audio env p ⟨[], fs⟩).2.events ∧
    ((transcribe_audio env p ⟨[], fs⟩).2.events.countP isTranscribeFailMsg
      = if (whisperText r).isSome then 0 else 1) ∧
    ((transcribe_audio env p ⟨[], fs⟩).2.events.countP isTranscribeDoneMsg
      = if (whisperText r).isSome then 1 else 0) := by
  unfold transcribe_audio
  simp only [h1, if_true]
  rw [h2, h3]
  cases h4 : whisperText r <;>
    simp [W.log, isTranscribeFailMsg, isTranscribeDoneMsg, h4, List.countP_cons, beq_iff_eq]

/-- C4: for an input path ending in `".wav"`, `transcribe_audio` never invokes
the ffmpeg conversion; for any other path it invokes it exactly once, before
anything else but its own progress message (in particular before the
transcription model is touched). -/
theorem c4_conversion_short_circuit (env : Env) (p : String) (fs : List String) :
    ((transcribe_audio env p ⟨[], fs⟩).2.events.countP isFfmpegCall
      = if endswith p ".wav" then 0 else 1) ∧
    (if endswith p ".wav" then True
     else (transcribe_audio env p ⟨[], fs⟩).2.events.take 2
        = [Event.uiSuccess "✅ Transcribing Audio Using Whisper...", Event.callFfmpeg p]) := by
  unfold transcribe_audio convert_audio
  by_cases hp : endswith p ".wav"
  · refine ⟨?_, by simp [hp]⟩
    simp only [hp, if_true]
    cases h1 : env.whisper_load "small" with
    | error e1 => simp [W.log, isFfmpegCall]
    | ok u =>
      cases h2 : env.whisper_transcribe p with
      | error e2 => simp [W.log, isFfmpegCall]
      | ok r2 =>
        cases h3 : whisperText r2 <;> simp [W.log, isFfmpegCall, h3]
  · rw [if_neg hp, if_neg hp]
    by_cases hf : (env.ffmpeg p).returncode ≠ 0
    · constructor <;> simp [hp, hf, W.log, isFfmpegCall]
    · cases h1 : env.whisper_load "small" with
      | error e1 => constructor <;> simp [hp, hf, W.log, isFfmpegCall, h1]
      | ok u =>
        cases h2 : env.whisper_transcribe "converted_audio.wav" with
        | error e2 => constructor <;> simp [hp, hf, W.log, isFfmpegCall, h1, h2]
        | ok r2 =>
          cases h3 : whisperText r2 <;> constructor <;>
            simp [hp, hf, W.log, isFfmpegCall, h1, h2, h3]

/-- The trace after `finishRun` is the incoming trace, the `finishEvents`, and
removal events: counts of predicates false on removals add up. -/
theorem finishRun_countP (env : Env) (url t model_ : String) (st : Int) (w : W)
    (q : Event → Bool) (hq : ∀ s, q (Event.osRemove s) = false) :
    (finishRun env url t model_ st w).2.events.countP q
      = w.events.countP q + (finishEvents env url t model_ st).countP q := by
  unfold finishRun finishEvents
  rcases hS : env.ollama_chat model_ ("Summarize this: " ++ t) with e | rs
  · simp only [summarize_text, hS]
    split
    · rename_i w' heq
      rw [cleanup_files_countP _ _ q heq hq]
      simp [W.log, List.countP_append, List.countP_cons]
    · rename_i heq
      exact absurd heq (Option.ne_none_iff_isSome.mpr (cleanup_files_isSome _))
  · by_cases hsv : pyStrip (contentOf rs) = "" <;>
      simp only [summarize_text, hS, hsv, if_true, if_false] <;>
      (split
       · rename_i w' heq
         rw [cleanup_files_countP _ _ q heq hq]
         simp [W.log, List.countP_append, List.countP_cons]
       · rename_i heq
         exact absurd heq (Option.ne_none_iff_isSome.mpr (cleanup_files_isSome _)))

/-- Membership in the trace after `finishRun`, for events that are not
removals. -/
theorem finishRun_mem (env : Env) (url t model_ : String) (st : Int) (w : W)
    (e : Event) (he : ∀ s, e ≠ Event.osRemove s) :
    (e ∈ (finishRun env url t model_ st w).2.events)
      ↔ e ∈ w.events ∨ e ∈ finishEvents env url t model_ st := by
  unfold finishRun finishEvents
  rcases hS : env.ollama_chat model_ ("Summarize this: " ++ t) with er | rs
  · simp only [summarize_text, hS]
    split
    · rename_i w' heq
      rw [cleanup_files_mem _ _ e heq he]
      simp [W.log, or_assoc]
    · rename_i heq
      exact absurd heq (Option.ne_none_iff_isSome.mpr (cleanup_files_isSome _))
  · by_cases hsv : pyStrip (contentOf rs) = "" <;>
      simp only [summarize_text, hS, hsv, if_true, if_false] <;>
      (split
       · rename_i w' heq
         rw [cleanup_files_mem _ _ e heq he]
         simp [W.log, or_assoc]
       · rename_i heq
         exact absurd heq (Option.ne_none_iff_isSome.mpr (cleanup_files_isSome _)))

/-- After `finishRun` the cleanup has removed both hardcoded files. -/
theorem finishRun_fs (env : Env) (url t model_ : String) (st : Int) (w : W) :
    "downloaded_audio.mp3" ∉ (finishRun env url t model_ st w).2.fs ∧
    "converted_audio.wav" ∉ (finishRun env url t model_ st w).2.fs := by
  unfold finishRun
  rcases hS : env.ollama_chat model_ ("Summarize this: " ++ t) with er | rs
  · simp only [summarize_text, hS]
    split
    · rename_i w' heq
      exact cleanup_files_fs _ _ heq
    · rename_i heq
      exact absurd heq (Option.ne_none_iff_isSome.mpr (cleanup_files_isSome _))
  · by_cases hsv : pyStrip (contentOf rs) = "" <;>
      simp only [summarize_text, hS, hsv, if_true, if_false] <;>
      (split
       · rename_i w' heq
         exact cleanup_files_fs _ _ heq
       · rename_i heq
         exact absurd heq (Option.ne_none_iff_isSome.mpr (cleanup_files_isSome _)))

/-- C3: if the language-model greeting call raises, `initialize_model` returns
null (no exception escapes: `tryBody` completes with an early return), the
error is shown, and the run halts before any transcription or summarization
step: no whisper call, no second ollama call, no Transcribing or Summarizing
message. -/
theorem c3_greeting_failure_halts (env : Env) (url fp e : String) (fs : List String)
    (hurl : url ≠ "")
    (h1 : env.download url = Except.ok fp)
    (h2 : env.ollama_chat "llama3.2:latest" "Hello!" = Except.error e) :
    (initialize_model env ⟨[], fs⟩).1 = none ∧
    Event.uiError ("❌ Ollama Model failed: " ++ e)
        ∈ (Semisizer.main env url true ⟨[], fs⟩).events ∧
    Event.uiInfo "🎙️ Transcribing Audio..." ∉ (Semisizer.main env url true ⟨[], fs⟩).events ∧
    (Semisizer.main env url true ⟨[], fs⟩).events.countP isWhisperLoadCall = 0 ∧
    (Semisizer.main env url true ⟨[], fs⟩).events.countP isWhisperTranscribeCall = 0 ∧
    (Semisizer.main env url true ⟨[], fs⟩).events.countP isOllamaCall = 1 ∧
    (Semisizer.main env url true ⟨[], fs⟩).events.countP isGenSummaryInfo = 0 ∧
    (tryBody env url env.t0 ⟨[], fs⟩).1 = Except.ok () := by
  unfold Semisizer.main tryBody download_video initialize_model
  simp [hurl, h1, h2, W.log, isWhisperLoadCall, isWhisperTranscribeCall, isOllamaCall,
    isGenSummaryInfo]

/-- C2: if the conversion subprocess exits non-zero, its stderr is surfaced to
the user, `convert_audio` raises (aborting the run into the top-level
handler), and the transcription step is never invoked: no whisper load, no
transcription call, no Summarizing step. -/
theorem c2_conversion_failure_aborts (env : Env) (url fp : String) (fs : List String)
    (r0 : ChatResponse)
    (hurl : url ≠ "")
    (h1 : env.download url = Except.ok fp)
    (hI : env.ollama_chat "llama3.2:latest" "Hello!" = Except.ok r0)
    (h3 : endswith fp ".wav" = false)
    (h4 : (env.ffmpeg fp).returncode ≠ 0) :
    (convert_audio env fp ⟨[], fs⟩).1 = Except.error "FFmpeg conversion failed" ∧
    Event.uiError ("❌ FFmpeg conversion failed:\n" ++ (env.ffmpeg fp).stderr)
        ∈ (Semisizer.main env url true ⟨[], fs⟩).events ∧
    Event.uiError "❌ Error: FFmpeg conversion failed"
        ∈ (Semisizer.main env url true ⟨[], fs⟩).events ∧
    (Semisizer.main env url true ⟨[], fs⟩).events.countP isWhisperLoadCall = 0 ∧
    (Semisizer.main env url true ⟨[], fs⟩).events.countP isWhisperTranscribeCall = 0 ∧
    (Semisizer.main env url true ⟨[], fs⟩).events.countP isGenSummaryInfo = 0 ∧
    (tryBody env url env.t0 ⟨[], fs⟩).1 = Except.error "FFmpeg conversion failed" := by
  have hstr : "❌ Error: " ++ "FFmpeg conversion failed" = "❌ Error: FFmpeg conversion failed" :=
    rfl
  unfold Semisizer.main tryBody download_video initialize_model transcribe_audio convert_audio
  by_cases hr : r0.truthy <;>
    simp [hurl, h1, hI, hr, h3, h4, W.log, hstr, isWhisperLoadCall, isWhisperTranscribeCall,
      isGenSummaryInfo]

/-- `finishEvents` contains exactly one ollama call: the summarization
request. -/
theorem finishEvents_ollama_count (env : Env) (url t model_ : String) (st : Int) :
    (finishEvents env url t model_ st).countP isOllamaCall = 1 := by
  unfold finishEvents
  rcases hS : env.ollama_chat model_ ("Summarize this: " ++ t) with e | rs
  · simp [isOllamaCall, List.countP_append, List.countP_cons]
  · by_cases hsv : pyStrip (contentOf rs) = "" <;>
      simp [hsv, isOllamaCall, List.countP_append, List.countP_cons]

/-- `finishEvents` contains exactly one Summarizing marker. -/
theorem finishEvents_genSummary_count (env : Env) (url t model_ : String) (st : Int) :
    (finishEvents env url t model_ st).countP isGenSummaryInfo = 1 := by
  unfold finishEvents
  rcases hS : env.ollama_chat model_ ("Summarize this: " ++ t) with e | rs
  · simp [isGenSummaryInfo, List.countP_append, List.countP_cons]
  · by_cases hsv : pyStrip (contentOf rs) = "" <;>
      simp [hsv, isGenSummaryInfo, List.countP_append, List.countP_cons]

/-- C1: the summarization step runs exactly when the greeting succeeded and the
transcription result was a successful, non-null, non-empty string: the run
makes a second ollama call and shows the Summarizing marker in that case and
only then.  In particular a run whose transcription result is the empty string
(or null, or an exception) halts before the Summarizing step. -/
theorem c1_summarize_gated_by_transcript (env : Env) (url fp : String) (fs : List String)
    (hurl : url ≠ "")
    (h1 : env.download url = Except.ok fp) :
    ((Semisizer.main env url true ⟨[], fs⟩).events.countP isOllamaCall
      = if initOk env && truthyT (transcribe_res env fp) then 2 else 1) ∧
    ((Semisizer.main env url true ⟨[], fs⟩).events.countP isGenSummaryInfo
      = if initOk env && truthyT (transcribe_res env fp) then 1 else 0) := by
  rcases hI : env.ollama_chat "llama3.2:latest" "Hello!" with e | r0
  · have hio : initOk env = false := by
      unfold initOk
      rw [hI]
    unfold Semisizer.main tryBody download_video initialize_model
    simp [hurl, h1, hI, hio, W.log, isOllamaCall, isGenSummaryInfo]
  · have hio : initOk env = true := by
      unfold initOk
      rw [hI]
    rcases htr : transcribe_res env fp with e2 | topt
    · have htt : truthyT (transcribe_res env fp) = false := by
        rw [htr]
        rfl
      unfold Semisizer.main tryBody download_video initialize_model
      by_cases hr : r0.truthy <;>
        simp [hurl, h1, hI, hr, hio, htt, W.log, transcribe_audio_fst, htr, truthyT,
          transcribe_audio_countP, isOllamaCall, isGenSummaryInfo, List.countP_append]
    · cases topt with
      | none =>
        have htt : truthyT (transcribe_res env fp) = false := by
          rw [htr]
          rfl
        unfold Semisizer.main tryBody download_video initialize_model
        by_cases hr : r0.truthy <;>
          simp [hurl, h1, hI, hr, hio, htt, W.log, transcribe_audio_fst, htr, truthyT,
            transcribe_audio_countP, isOllamaCall, isGenSummaryInfo, List.countP_append]
      | some t =>
        by_cases ht : t = ""
        · subst ht
          have htt : truthyT (transcribe_res env fp) = false := by
            rw [htr]
            rfl
          unfold Semisizer.main tryBody download_video initialize_model
          by_cases hr : r0.truthy <;>
            simp [hurl, h1, hI, hr, hio, htt, W.log, transcribe_audio_fst, htr, truthyT,
              transcribe_audio_countP, isOllamaCall, isGenSummaryInfo, List.countP_append]
        · have htt : truthyT (transcribe_res env fp) = true := by
            rw [htr]
            simp [truthyT, ht]
          obtain ⟨wT, hm, F1, F2, F3, F4⟩ := main_done env url fs fp t r0 hurl h1 hI htr ht
          rw [hm]
          refine ⟨?_, ?_⟩
          · rw [finishRun_countP env url t "llama3.2:latest" env.t0 wT isOllamaCall
              (fun s => rfl)]
            rw [F1, finishEvents_ollama_count]
            simp [hio, truthyT, ht]
          · rw [finishRun_countP env url t "llama3.2:latest" env.t0 wT isGenSummaryInfo
              (fun s => rfl)]
            rw [F2, finishEvents_genSummary_count]
            simp [hio, truthyT, ht]

/-- C5 (amended): on reaching the end of the pipeline normally, `cleanup_files`
runs and deletes `downloaded_audio.mp3` and `converted_audio.wav`; at process
exit the module-level `delete_file` calls additionally guarantee that
`downloaded_audio.webm` and `converted_audio.wav` are gone and the script
finishes without an uncaught error. -/
theorem c5_cleanup_on_done (env : Env) (url fp t : String) (fs : List String)
    (r0 : ChatResponse)
    (hurl : url ≠ "")
    (h1 : env.download url = Except.ok fp)
    (hI : env.ollama_chat "llama3.2:latest" "Hello!" = Except.ok r0)
    (h3 : transcribe_res env fp = Except.ok (some t))
    (h4 : t ≠ "") :
    "downloaded_audio.mp3" ∉ (Semisizer.main env url true ⟨[], fs⟩).fs ∧
    "converted_audio.wav" ∉ (Semisizer.main env url true ⟨[], fs⟩).fs ∧
    scriptOk (script env url true ⟨[], fs⟩) = true := by
  obtain ⟨wT, hm, F1, F2, F3, F4⟩ := main_done env url fs fp t r0 hurl h1 hI h3 h4
  have hfs := finishRun_fs env url t "llama3.2:latest" env.t0 wT
  refine ⟨by rw [hm]; exact hfs.1, by rw [hm]; exact hfs.2, ?_⟩
  obtain ⟨w1, hw1⟩ :=
    delete_file_total "downloaded_audio.webm" (Semisizer.main env url true ⟨[], fs⟩)
  obtain ⟨w2, hw2⟩ := delete_file_total "converted_audio.wav" w1
  unfold script
  simp only [hw1]
  rw [hw2]
  have hwebm1 := delete_file_fs_self _ _ _ hw1
  have hwebm2 := delete_file_fs_mono "downloaded_audio.webm" "converted_audio.wav" _ _ hw2 hwebm1
  have hwav := delete_file_fs_self _ _ _ hw2
  simp [scriptOk, hwebm2, hwav]

/-- C5 (counterexample to the claim as stated): when the download raises, the
exception propagates to the handler (the generic error is shown), but
`cleanup_files` does not run: `downloaded_audio.mp3` existed and still exists
after the whole script, even though the claim requires the cleanup step to
delete it on any propagated exception. -/
theorem c5_claim_counterexample :
    Event.uiError "❌ Error: network down"
        ∈ (Option.getD (script envDownFail "u" true ⟨[], ["downloaded_audio.mp3"]⟩)
            ⟨[], []⟩).events ∧
    "downloaded_audio.mp3"
        ∈ (Option.getD (script envDownFail "u" true ⟨[], ["downloaded_audio.mp3"]⟩)
            ⟨[], []⟩).fs := by
  decide

/-- C6 (amended): the elapsed wall-clock time is measured from before the
Downloading step to just after the Summarizing step (`t1 - t0`) but is
reported only when the summary is non-empty; exactly one time readout is
written in that case. -/
theorem c6_elapsed_reported_only_with_summary (env : Env) (url fp t : String)
    (fs : List String) (r0 rs : ChatResponse)
    (hurl : url ≠ "")
    (h1 : env.download url = Except.ok fp)
    (hI : env.ollama_chat "llama3.2:latest" "Hello!" = Except.ok r0)
    (h3 : transcribe_res env fp = Except.ok (some t))
    (h4 : t ≠ "")
    (h5 : env.ollama_chat "llama3.2:latest" ("Summarize this: " ++ t) = Except.ok rs)
    (h6 : pyStrip (contentOf rs) ≠ "") :
    Event.uiWrite (timeMsg (env.t1 - env.t0))
        ∈ (Semisizer.main env url true ⟨[], fs⟩).events ∧
    (Semisizer.main env url true ⟨[], fs⟩).events.countP isUiWrite = 1 := by
  obtain ⟨wT, hm, F1, F2, F3, F4⟩ := main_done env url fs fp t r0 hurl h1 hI h3 h4
  rw [hm]
  constructor
  · rw [finishRun_mem env url t "llama3.2:latest" env.t0 wT _ (fun s => by simp)]
    right
    unfold finishEvents
    simp [h5, h6]
  · rw [finishRun_countP env url t "llama3.2:latest" env.t0 wT isUiWrite (fun s => rfl), F3]
    unfold finishEvents
    simp [h5, h6, isUiWrite, List.countP_append, List.countP_cons]

/-- C6 (counterexample to the claim as stated): a run whose summarization call
raises reaches Done with the failure message, yet no processing-time readout
is written, contradicting the claim that the elapsed time is reported even
when the summarization result is null. -/
theorem c6_claim_counterexample :
    Event.uiError "❌ Summary generation failed."
        ∈ (Semisizer.main envLlmDown "u" true ⟨[], []⟩).events ∧
    (Semisizer.main envLlmDown "u" true ⟨[], []⟩).events.countP isUiWrite = 0 := by
  decide

/-- C9: when the model call succeeds but the response carries no message
content, `summarize_text` returns the empty string (not null); the
orchestrator treats that falsy summary as a failure: the failure message is
rendered, no summary panel is shown, and no time readout is written. -/
theorem c9_empty_content_summary_is_failure (env : Env) (url fp t : String)
    (fs : List String) (r0 rs : ChatResponse)
    (hurl : url ≠ "")
    (h1 : env.download url = Except.ok fp)
    (hI : env.ollama_chat "llama3.2:latest" "Hello!" = Except.ok r0)
    (h3 : transcribe_res env fp = Except.ok (some t))
    (h4 : t ≠ "")
    (h5 : env.ollama_chat "llama3.2:latest" ("Summarize this: " ++ t) = Except.ok rs)
    (h6 : contentNone rs = true) :
    (summarize_text env t "llama3.2:latest" ⟨[], fs⟩).1 = some "" ∧
    Event.uiError "❌ Summary generation failed."
        ∈ (Semisizer.main env url true ⟨[], fs⟩).events ∧
    Event.uiSuccess "" ∉ (Semisizer.main env url true ⟨[], fs⟩).events ∧
    (Semisizer.main env url true ⟨[], fs⟩).events.countP isUiWrite = 0 := by
  have hc : contentOf rs = "" := by
    unfold contentOf
    unfold contentNone at h6
    rcases hmg : rs.message with _ | m
    · rfl
    · rw [hmg] at h6
      rw [Option.isNone_iff_eq_none] at h6
      simp [h6]
  have hsv : pyStrip (contentOf rs) = "" := by
    rw [hc]
    decide
  obtain ⟨wT, hm, F1, F2, F3, F4⟩ := main_done env url fs fp t r0 hurl h1 hI h3 h4
  refine ⟨by simp [summarize_text, h5, hsv], ?_, ?_, ?_⟩
  · rw [hm]
    rw [finishRun_mem env url t "llama3.2:latest" env.t0 wT _ (fun s => by simp)]
    right
    unfold finishEvents
    simp [h5, hsv]
  · rw [hm]
    rw [finishRun_mem env url t "llama3.2:latest" env.t0 wT _ (fun s => by simp)]
    rintro (hA | hB)
    · exact F4 hA
    · unfold finishEvents at hB
      simp [h5, hsv] at hB
  · rw [hm]
    rw [finishRun_countP env url t "llama3.2:latest" env.t0 wT isUiWrite (fun s => rfl), F3]
    unfold finishEvents
    simp [h5, hsv, isUiWrite, List.countP_append, List.countP_cons]

/-- Witness for C1 at a concrete successful run: two ollama calls and one
Summarizing marker. -/
theorem c1_gate_witness :
    ((Semisizer.main envHappy "u" true ⟨[], []⟩).events.countP isOllamaCall
      = if initOk envHappy && truthyT (transcribe_res envHappy "downloaded_audio.mp3")
        then 2 else 1) ∧
    ((Semisizer.main envHappy "u" true ⟨[], []⟩).events.countP isGenSummaryInfo
      = if initOk envHappy && truthyT (transcribe_res envHappy "downloaded_audio.mp3")
        then 1 else 0) :=
  c1_summarize_gated_by_transcript envHappy "u" "downloaded_audio.mp3" [] (by decide) rfl

/-- Witness for C2 at a concrete run with a failing conversion. -/
theorem c2_abort_witness :
    (convert_audio envFfmpegFail "downloaded_audio.mp3" ⟨[], []⟩).1
        = Except.error "FFmpeg conversion failed" ∧
    Event.uiError ("❌ FFmpeg conversion failed:\n"
        ++ (envFfmpegFail.ffmpeg "downloaded_audio.mp3").stderr)
        ∈ (Semisizer.main envFfmpegFail "u" true ⟨[], []⟩).events ∧
    Event.uiError "❌ Error: FFmpeg conversion failed"
        ∈ (Semisizer.main envFfmpegFail "u" true ⟨[], []⟩).events ∧
    (Semisizer.main envFfmpegFail "u" true ⟨[], []⟩).events.countP isWhisperLoadCall = 0 ∧
    (Semisizer.main envFfmpegFail "u" true ⟨[], []⟩).events.countP isWhisperTranscribeCall = 0 ∧
    (Semisizer.main envFfmpegFail "u" true ⟨[], []⟩).events.countP isGenSummaryInfo = 0 ∧
    (tryBody envFfmpegFail "u" envFfmpegFail.t0 ⟨[], []⟩).1
        = Except.error "FFmpeg conversion failed" :=
  c2_conversion_failure_aborts envFfmpegFail "u" "downloaded_audio.mp3" [] helloResp
    (by decide) rfl rfl (by decide) (by decide)

/-- Witness for C3 at a concrete run with a failing greeting. -/
theorem c3_halt_witness :
    (initialize_model envInitFail ⟨[], []⟩).1 = none ∧
    Event.uiError ("❌ Ollama Model failed: " ++ "connection refused")
        ∈ (Semisizer.main envInitFail "u" true ⟨[], []⟩).events ∧
    Event.uiInfo "🎙️ Transcribing Audio..." ∉ (Semisizer.main envInitFail "u" true ⟨[], []⟩).events ∧
    (Semisizer.main envInitFail "u" true ⟨[], []⟩).events.countP isWhisperLoadCall = 0 ∧
    (Semisizer.main envInitFail "u" true ⟨[], []⟩).events.countP isWhisperTranscribeCall = 0 ∧
    (Semisizer.main envInitFail "u" true ⟨[], []⟩).events.countP isOllamaCall = 1 ∧
    (Semisizer.main envInitFail "u" true ⟨[], []⟩).events.countP isGenSummaryInfo = 0 ∧
    (tryBody envInitFail "u" envInitFail.t0 ⟨[], []⟩).1 = Except.ok () :=
  c3_greeting_failure_halts envInitFail "u" "downloaded_audio.mp3" "connection refused" []
    (by decide) rfl rfl

/-- Witness for C5 (amended) at a concrete successful run. -/
theorem c5_done_witness :
    "downloaded_audio.mp3" ∉ (Semisizer.main envHappy "u" true ⟨[], []⟩).fs ∧
    "converted_audio.wav" ∉ (Semisizer.main envHappy "u" true ⟨[], []⟩).fs ∧
    scriptOk (script envHappy "u" true ⟨[], []⟩) = true :=
  c5_cleanup_on_done envHappy "u" "downloaded_audio.mp3" " hello world " [] helloResp
    (by decide) rfl rfl rfl (by decide)

/-- Witness for C6 (amended) at a concrete successful run: the time readout
for `t1 - t0 = 7` is written exactly once. -/
theorem c6_time_witness :
    Event.uiWrite (timeMsg (envHappy.t1 - envHappy.t0))
        ∈ (Semisizer.main envHappy "u" true ⟨[], []⟩).events ∧
    (Semisizer.main envHappy "u" true ⟨[], []⟩).events.countP isUiWrite = 1 :=
  c6_elapsed_reported_only_with_summary envHappy "u" "downloaded_audio.mp3" " hello world " []
    helloResp summResp (by decide) rfl rfl rfl (by decide) rfl (by decide)

/-- Witness for C9 at a concrete run whose summarization response carries no
message content. -/
theorem c9_empty_witness :
    (summarize_text envNoContent " hello world " "llama3.2:latest" ⟨[], []⟩).1 = some "" ∧
    Event.uiError "❌ Summary generation failed."
        ∈ (Semisizer.main envNoContent "u" true ⟨[], []⟩).events ∧
    Event.uiSuccess "" ∉ (Semisizer.main envNoContent "u" true ⟨[], []⟩).events ∧
    (Semisizer.main envNoContent "u" true ⟨[], []⟩).events.countP isUiWrite = 0 :=
  c9_empty_content_summary_is_failure envNoContent "u" "a.wav" " hello world " []
    helloResp emptyResp (by decide) rfl rfl rfl (by decide) rfl rfl

/-- Witness for C8 at a concrete transcription with a present text field. -/
theorem c8_text_witness :
    (transcribe_audio envHappy "x.wav" ⟨[], []⟩).1
        = Except.ok (whisperText (some [("text", " hello world ")])) ∧
    Event.callWhisperLoad "small" ∈ (transcribe_audio envHappy "x.wav" ⟨[], []⟩).2.events ∧
    ((transcribe_audio envHappy "x.wav" ⟨[], []⟩).2.events.countP isTranscribeFailMsg
      = if (whisperText (some [("text", " hello world ")])).isSome then 0 else 1) ∧
    ((transcribe_audio envHappy "x.wav" ⟨[], []⟩).2.events.countP isTranscribeDoneMsg
      = if (whisperText (some [("text", " hello world ")])).isSome then 1 else 0) :=
  c8_transcription_result envHappy "x.wav" [] (some [("text", " hello world ")])
    (by decide) rfl rfl
